import Mathlib

/-!
# Verification of `gan_synthetic_data_generator.py`

A shallow embedding of the repository's single source file
(`src/gan_synthetic_data_generator.py`) and proofs about it.

Conventions:
* numpy arrays of shape `(n, 30, 1)` are embedded as `List (List (List ℝ))`
  (row-major nesting, matching numpy's C order);
* the random source (`np.random.normal`, `np.random.randn`,
  `K.random_normal`) is an oracle function supplied as an argument: a draw
  `u i j l` is the standard-normal sample at index `(i, j, l)`, and
  `normal(scale=σ)` is embedded as `σ * u i j l` (a `normal(0, σ)` draw is
  `σ` times a standard-normal draw);
* fallible numpy calls (`np.linspace` with a negative count, `reshape` with
  a mismatched element count) are embedded with `Except`/`Option`;
* the deep-learning framework's layers, optimizers and gradient steps are
  external collaborators (spec §1, §6): they appear as oracle functions and
  as shape-level contracts, while everything the source file itself does
  (orchestration, label construction, loss formulas, array construction)
  is embedded concretely.
-/

namespace GanSyn

/-- A numpy array of shape `(n, 30, 1)` (or more generally rank 3),
row-major. -/
abbrev Batch := List (List (List ℝ))

/-- `np.linspace(a, b, num)` with the default `endpoint=True`:
`num` evenly spaced values from `a` to `b`; a single-point linspace
is `[a]`. -/
noncomputable def np_linspace (a b : ℝ) (num : ℕ) : List ℝ :=
  (List.range num).map fun (i : ℕ) =>
    if num ≤ 1 then a else a + (b - a) * (i : ℝ) / ((num : ℝ) - 1)

/-- `xs.reshape(n, m, k)`: succeeds (returns `some`) exactly when the
element count matches, as numpy's `reshape` raises otherwise. -/
def np_reshape3 (xs : List ℝ) (n m k : ℕ) : Option Batch :=
  if xs.length = n * m * k then
    some ((List.range n).map fun i =>
      (List.range m).map fun j =>
        (List.range k).map fun l => xs.getD ((i * m + j) * k + l) 0)
  else none

/-- An `(n, m, k)` array of standard-normal draws from the oracle `u`
(`np.random.randn` / `np.random.normal(0, 1, (n, m, k))`). -/
def np_random3 (n m k : ℕ) (u : ℕ → ℕ → ℕ → ℝ) : Batch :=
  (List.range n).map fun i =>
    (List.range m).map fun j =>
      (List.range k).map fun l => u i j l

/-- Elementwise scalar multiplication `c * X`. -/
noncomputable def np_smul3 (c : ℝ) (X : Batch) : Batch :=
  X.map (List.map (List.map fun v => c * v))

/-- Elementwise scalar addition `c + X`. -/
noncomputable def np_sadd3 (c : ℝ) (X : Batch) : Batch :=
  X.map (List.map (List.map fun v => c + v))

/-- Elementwise `np.sin`. -/
noncomputable def np_sin3 (X : Batch) : Batch :=
  X.map (List.map (List.map Real.sin))

/-- Elementwise addition of equal-shaped arrays. -/
noncomputable def np_add3 (A B : Batch) : Batch :=
  List.zipWith (List.zipWith (List.zipWith (· + ·))) A B

/-- Elementwise multiplication of equal-shaped arrays. -/
noncomputable def np_mul3 (A B : Batch) : Batch :=
  List.zipWith (List.zipWith (List.zipWith (· * ·))) A B

/-- `X.flatten()`: row-major flattening of a rank-3 array. -/
def np_flatten (X : Batch) : List ℝ :=
  X.flatten.flatten

/-- The array `y` has shape `(n, m, k)`. -/
def shape3 (y : Batch) (n m k : ℕ) : Prop :=
  y.length = n ∧ ∀ r ∈ y, r.length = m ∧ ∀ c ∈ r, c.length = k

/-- The body of `generate_real_data` (source lines 89–93) for a
non-negative sample count:
`X = np.linspace(0, 100, n*30).reshape(n, 30, 1)`,
`y = np.sin(X) + np.random.normal(scale=0.5, size=X.shape)`.
The `reshape` always succeeds here because `np.linspace` returns exactly
`n * 30` elements (`generate_real_data_pos_eq` below); the `.getD []`
only discharges the `Option`. -/
noncomputable def generate_real_data_pos (n : ℕ) (u : ℕ → ℕ → ℕ → ℝ) : Batch :=
  let X := (np_reshape3 (np_linspace 0 100 (n * 30)) n 30 1).getD []
  np_add3 (np_sin3 X) (np_smul3 0.5 (np_random3 n 30 1 u))

/-- `generate_real_data(n_samples)` (source lines 89–93). For a negative
`n_samples`, `np.linspace(0, 100, n_samples * 30)` raises
`ValueError: Number of samples must be non-negative`; otherwise the body
`generate_real_data_pos` runs. -/
noncomputable def generate_real_data (n_samples : ℤ) (u : ℕ → ℕ → ℕ → ℝ) :
    Except String Batch :=
  if n_samples < 0 then
    .error "ValueError: Number of samples must be non-negative"
  else
    .ok (generate_real_data_pos n_samples.toNat u)

/-- The body of `generate_rule_based_data` (source lines 225–229) for a
non-negative sample count:
`X = np.linspace(0, 100, n*30).reshape(n, 30, 1)`,
`y = np.sin(X) * (1 + 0.1 * np.random.randn(*X.shape))`. -/
noncomputable def generate_rule_based_data_pos (n : ℕ) (u : ℕ → ℕ → ℕ → ℝ) : Batch :=
  let X := (np_reshape3 (np_linspace 0 100 (n * 30)) n 30 1).getD []
  np_mul3 (np_sin3 X) (np_sadd3 1 (np_smul3 0.1 (np_random3 n 30 1 u)))

/-- `generate_rule_based_data(n_samples)` (source lines 225–229), with the
same failure condition on a negative count as `generate_real_data`. -/
noncomputable def generate_rule_based_data (n_samples : ℤ) (u : ℕ → ℕ → ℕ → ℝ) :
    Except String Batch :=
  if n_samples < 0 then
    .error "ValueError: Number of samples must be non-negative"
  else
    .ok (generate_rule_based_data_pos n_samples.toNat u)

/- ### Helper lemmas about the synthesizers -/

theorem np_linspace_length (a b : ℝ) (num : ℕ) : (np_linspace a b num).length = num := by
  simp only [np_linspace, List.length_map, List.length_range]

theorem np_linspace_getD (a b : ℝ) (num k : ℕ) (h1 : 1 < num) (hk : k < num) :
    (np_linspace a b num).getD k 0 = a + (b - a) * k / (num - 1) := by
  simp only [np_linspace, List.getD_eq_getElem?_getD, List.getElem?_map, List.getElem?_range hk,
    if_neg (Nat.not_le.mpr h1)]
  rfl

theorem list_zipWith_same {α β : Type} (f : α → α → β) (l : List α) :
    List.zipWith f l l = l.map fun x => f x x := by
  induction l with
  | nil => rfl
  | cons x xs ih => simp [ih]

/-- Closed form of `generate_real_data_pos`: the `(i, j, 0)` entry is
`sin` of the `(i*30+j)`-th point of the ramp, plus `0.5` times the
standard-normal draw at that position. -/
theorem generate_real_data_pos_eq (n : ℕ) (u : ℕ → ℕ → ℕ → ℝ) :
    generate_real_data_pos n u =
      (List.range n).map fun (i : ℕ) => (List.range 30).map fun (j : ℕ) =>
        [Real.sin (100 * ((i * 30 + j : ℕ) : ℝ) / ((n * 30 - 1 : ℕ) : ℝ)) + 0.5 * u i j 0] := by
  rcases Nat.eq_zero_or_pos n with hn | hn
  · subst hn
    rfl
  · have hres : np_reshape3 (np_linspace 0 100 (n * 30)) n 30 1 =
        some ((List.range n).map fun i =>
          (List.range 30).map fun j =>
            (List.range 1).map fun l =>
              (np_linspace 0 100 (n * 30)).getD ((i * 30 + j) * 1 + l) 0) := by
      unfold np_reshape3
      rw [np_linspace_length, if_pos (by ring)]
    have hval : ∀ i j : ℕ, i < n → j < 30 →
        (np_linspace 0 100 (n * 30)).getD (i * 30 + j) 0 =
          100 * ((i * 30 + j : ℕ) : ℝ) / ((n * 30 - 1 : ℕ) : ℝ) := by
      intro i j hi hj
      have h1 : 1 < n * 30 := by omega
      have hk : i * 30 + j < n * 30 := by
        calc i * 30 + j < i * 30 + 30 := by omega
        _ = (i + 1) * 30 := by ring
        _ ≤ n * 30 := Nat.mul_le_mul_right 30 (by omega)
      rw [np_linspace_getD 0 100 (n * 30) (i * 30 + j) h1 hk,
        Nat.cast_sub (by omega : 1 ≤ n * 30)]
      push_cast
      ring
    have hval2 : ∀ i j : ℕ, i < n → j < 30 →
        (np_linspace 0 100 (n * 30))[i * 30 + j]?.getD 0 =
          100 * ((i * 30 + j : ℕ) : ℝ) / ((n * 30 - 1 : ℕ) : ℝ) := by
      intro i j hi hj
      rw [← List.getD_eq_getElem?_getD]
      exact hval i j hi hj
    unfold generate_real_data_pos
    rw [hres]
    simp only [Option.getD_some, np_sin3, np_smul3, np_random3, np_add3, List.map_map]
    rw [List.zipWith_map, list_zipWith_same]
    refine List.map_congr_left ?_
    intro i hi
    rw [List.mem_range] at hi
    simp only [Function.comp_apply, List.map_map]
    rw [List.zipWith_map, list_zipWith_same]
    refine List.map_congr_left ?_
    intro j hj
    rw [List.mem_range] at hj
    simp only [Function.comp_apply, List.map_map]
    rw [List.zipWith_map, list_zipWith_same]
    simp [List.range_succ, List.range_zero, hval2 i j hi hj]

/-- Closed form of `generate_rule_based_data_pos`. -/
theorem generate_rule_based_data_pos_eq (n : ℕ) (u : ℕ → ℕ → ℕ → ℝ) :
    generate_rule_based_data_pos n u =
      (List.range n).map fun (i : ℕ) => (List.range 30).map fun (j : ℕ) =>
        [Real.sin (100 * ((i * 30 + j : ℕ) : ℝ) / ((n * 30 - 1 : ℕ) : ℝ))
          * (1 + 0.1 * u i j 0)] := by
  rcases Nat.eq_zero_or_pos n with hn | hn
  · subst hn
    rfl
  · have hres : np_reshape3 (np_linspace 0 100 (n * 30)) n 30 1 =
        some ((List.range n).map fun i =>
          (List.range 30).map fun j =>
            (List.range 1).map fun l =>
              (np_linspace 0 100 (n * 30)).getD ((i * 30 + j) * 1 + l) 0) := by
      unfold np_reshape3
      rw [np_linspace_length, if_pos (by ring)]
    have hval : ∀ i j : ℕ, i < n → j < 30 →
        (np_linspace 0 100 (n * 30)).getD (i * 30 + j) 0 =
          100 * ((i * 30 + j : ℕ) : ℝ) / ((n * 30 - 1 : ℕ) : ℝ) := by
      intro i j hi hj
      have h1 : 1 < n * 30 := by omega
      have hk : i * 30 + j < n * 30 := by
        calc i * 30 + j < i * 30 + 30 := by omega
        _ = (i + 1) * 30 := by ring
        _ ≤ n * 30 := Nat.mul_le_mul_right 30 (by omega)
      rw [np_linspace_getD 0 100 (n * 30) (i * 30 + j) h1 hk,
        Nat.cast_sub (by omega : 1 ≤ n * 30)]
      push_cast
      ring
    have hval2 : ∀ i j : ℕ, i < n → j < 30 →
        (np_linspace 0 100 (n * 30))[i * 30 + j]?.getD 0 =
          100 * ((i * 30 + j : ℕ) : ℝ) / ((n * 30 - 1 : ℕ) : ℝ) := by
      intro i j hi hj
      rw [← List.getD_eq_getElem?_getD]
      exact hval i j hi hj
    unfold generate_rule_based_data_pos
    rw [hres]
    simp only [Option.getD_some, np_sin3, np_smul3, np_sadd3, np_random3, np_mul3, List.map_map]
    rw [List.zipWith_map, list_zipWith_same]
    refine List.map_congr_left ?_
    intro i hi
    rw [List.mem_range] at hi
    simp only [Function.comp_apply, List.map_map]
    rw [List.zipWith_map, list_zipWith_same]
    refine List.map_congr_left ?_
    intro j hj
    rw [List.mem_range] at hj
    simp only [Function.comp_apply, List.map_map]
    rw [List.zipWith_map, list_zipWith_same]
    simp [List.range_succ, List.range_zero, hval2 i j hi hj]

/- ### GAN pipeline (source lines 55–118)

The generator, discriminator and their optimizers are the deep-learning
framework's black boxes (spec §1, §6).  Their parameter vectors are carried
explicitly, and the framework's operations appear as oracle functions:
`predict` is `generator.predict`, `dtrain` is the weight update + metrics of
`discriminator.train_on_batch` (the discriminator was compiled on its own,
line 77, before being frozen, so its own `train_on_batch` updates it), and
`gtrain` is the generator-weight update + loss of `gan.train_on_batch`,
which reads the discriminator weights but may only write the generator's. -/

/-- The parameters of the two networks: `generator` and `discriminator`
weight vectors (spec §3: owned exclusively by each model, no sharing). -/
structure GanWeights where
  gen : List ℝ
  disc : List ℝ

/-- The framework-supplied operations the training loop calls
(external collaborators, spec §6). `dtrain w batch labels` returns the
updated discriminator weights with the batch's `(loss, accuracy)`;
`gtrain g d noise labels` returns the updated generator weights with the
composite model's loss, the discriminator weights `d` being read-only
input. `dataU e` and `noiseU e k` are the standard-normal draws consumed
at epoch `e` (by `generate_real_data` and by the `k`-th
`np.random.normal(0, 1, (batch_size, 30, 1))` of that epoch). -/
structure GanOracle where
  predict : List ℝ → Batch → Batch
  dtrain : List ℝ → Batch → List (List ℝ) → List ℝ × ℝ × ℝ
  gtrain : List ℝ → List ℝ → Batch → List ℝ → List ℝ × ℝ
  dataU : ℕ → ℕ → ℕ → ℕ → ℝ
  noiseU : ℕ → ℕ → ℕ → ℕ → ℕ → ℝ

/-- `np.ones((b, 1))`. -/
def np_ones2 (b : ℕ) : List (List ℝ) := List.replicate b [1]

/-- `np.zeros((b, 1))`. -/
def np_zeros2 (b : ℕ) : List (List ℝ) := List.replicate b [0]

/-- `np.array([1] * batch_size)` (source line 110). -/
def valid_y (b : ℕ) : List ℝ := List.replicate b 1

/-- `discriminator.train_on_batch(batch, labels)` (source lines 104–105):
updates the discriminator's weights, leaves the generator's untouched,
and returns the batch's `[loss, accuracy]`. -/
def disc_train_on_batch (o : GanOracle) (w : GanWeights) (batch : Batch)
    (labels : List (List ℝ)) : GanWeights × ℝ × ℝ :=
  let r := o.dtrain w.disc batch labels
  (⟨w.gen, r.1⟩, r.2)

/-- `gan.train_on_batch(noise, valid_y)` (source line 111).  Modelled from
the spec: the framework updates only the weights that were trainable when
the composite model was compiled, and `discriminator.trainable = False`
was set (line 80) before `gan.compile` (line 84), so this call may update
the generator weights only — the discriminator weights are read, not
written. -/
def gan_train_on_batch (o : GanOracle) (w : GanWeights) (noise : Batch)
    (labels : List ℝ) : GanWeights × ℝ :=
  let r := o.gtrain w.gen w.disc noise labels
  (⟨r.1, w.disc⟩, r.2)

/-- What one iteration of `train_gan` reports. -/
structure EpochLog where
  d_loss : ℝ × ℝ
  g_loss : ℝ
  printed : Bool

/-- Unwrap an `Except` that is known to be `ok` (a Python exception would
propagate instead; `train_gan` only reaches this with a non-negative
count, where `generate_real_data` cannot fail). -/
def exceptGetD {ε α : Type} (e : Except ε α) (d : α) : α :=
  match e with
  | .ok a => a
  | .error _ => d

/-- One iteration of the `train_gan` loop body (source lines 98–115):
draw a real batch and a noise batch, run the generator on the noise,
train the discriminator on (real, ones) then on (fake, zeros), average
the two `[loss, acc]` pairs with `0.5 * np.add`, then train the composite
model on fresh noise against all-ones labels; every 100 epochs a progress
line is printed. -/
noncomputable def gan_epoch (o : GanOracle) (batch_size epoch : ℕ) (w : GanWeights) :
    GanWeights × EpochLog :=
  let real_data := exceptGetD (generate_real_data (batch_size : ℤ) (o.dataU epoch)) []
  let noise := np_random3 batch_size 30 1 (o.noiseU epoch 0)
  let fake_data := o.predict w.gen noise
  let s1 := disc_train_on_batch o w real_data (np_ones2 batch_size)
  let s2 := disc_train_on_batch o s1.1 fake_data (np_zeros2 batch_size)
  let d_loss : ℝ × ℝ := (0.5 * (s1.2.1 + s2.2.1), 0.5 * (s1.2.2 + s2.2.2))
  let noise2 := np_random3 batch_size 30 1 (o.noiseU epoch 1)
  let s3 := gan_train_on_batch o s2.1 noise2 (valid_y batch_size)
  (s3.1, ⟨d_loss, s3.2, epoch % 100 == 0⟩)

/-- The fold step of `train_gan`: run one epoch and append its log. -/
noncomputable def train_gan_step (o : GanOracle) (batch_size : ℕ)
    (acc : GanWeights × List EpochLog) (epoch : ℕ) : GanWeights × List EpochLog :=
  ((gan_epoch o batch_size epoch acc.1).1,
    acc.2 ++ [(gan_epoch o batch_size epoch acc.1).2])

/-- `train_gan(generator, discriminator, gan, epochs, batch_size)`
(source lines 96–115): `for epoch in range(epochs)` — the body runs once
per element of `range(epochs)`, with no break, convergence check or early
stopping. -/
noncomputable def train_gan (o : GanOracle) (w0 : GanWeights)
    (epochs batch_size : ℕ) : GanWeights × List EpochLog :=
  (List.range epochs).foldl (train_gan_step o batch_size) (w0, [])

/-- Default `epochs` of `train_gan` (source line 96). -/
def train_gan_default_epochs : ℕ := 1000

/-- Default `batch_size` of `train_gan` (source line 96). -/
def train_gan_default_batch_size : ℕ := 32

/- ### VAE loss (source lines 130–185) -/

/-- `K.flatten`: flatten a whole rank-3 tensor to rank 1. -/
def K_flatten (x : Batch) : List ℝ :=
  x.flatten.flatten

/-- `tf.keras.losses.mean_squared_error(y_true, y_pred)` on rank-1
tensors: the mean over the (shared) last axis of the squared
differences. -/
noncomputable def mean_squared_error (y_true y_pred : List ℝ) : ℝ :=
  (((y_true.zip y_pred).map fun p => (p.1 - p.2) ^ 2).sum) / ((y_true.zip y_pred).length : ℝ)

/-- The per-sample KL term of the VAE loss (source lines 175–176):
`-0.5 * K.sum(1 + z_log_var - K.square(z_mean) - K.exp(z_log_var), axis=-1)`
for one row (one sample's mean vector `zm` and log-variance vector
`zlv`). -/
noncomputable def kl_row (zm zlv : List ℝ) : ℝ :=
  -0.5 * (((zm.zip zlv).map fun p => 1 + p.2 - p.1 ^ 2 - Real.exp p.2).sum)

/-- `vae_loss` (source lines 173–177): the reconstruction loss is the MSE
of the fully flattened input and output, scaled by
`input_shape[0] * input_shape[1] = 30 * 1`; it is a scalar, broadcast
against the per-sample KL vector, and `K.mean` is taken over the
resulting batch vector. -/
noncomputable def vae_loss (inputs outputs : Batch) (z_mean z_log_var : List (List ℝ)) : ℝ :=
  let reconstruction_loss := mean_squared_error (K_flatten inputs) (K_flatten outputs) * (30 * 1)
  let kl_loss := (z_mean.zip z_log_var).map fun p => kl_row p.1 p.2
  ((kl_loss.map fun k => reconstruction_loss + k).sum) / (kl_loss.length : ℝ)

/-- The `loss` argument of `vae.compile` (source line 180): none is
passed — the loss added by `vae.add_loss(vae_loss)` is the sole training
signal. -/
def vae_compile_loss_arg : Option String := none

/-- The target (`y`) argument of `vae.fit` (source line 185): none is
passed — there is no explicit target output. -/
def vae_fit_target_arg : Option Batch := none

/- ### Layer shape calculus (for the encoder/decoder round trip)

The layers themselves are framework black boxes; what the source pins
down is which layers are stacked (source lines 133–139 and 150–156).
Shapes include the batch dimension first.  Each layer's effect on a
shape is modelled from the spec's external-interface contract (§6). -/

/-- A tensor shape, batch dimension first. -/
abbrev Shape := List ℕ

/-- Modelled from the spec: a recurrent (LSTM) layer consumes a
`(batch, timesteps, features)` tensor and yields `(batch, timesteps,
units)` with `return_sequences=True`, else `(batch, units)`. -/
def lstm_shape (units : ℕ) (return_sequences : Bool) : Shape → Option Shape
  | [b, t, _d] => some (if return_sequences then [b, t, units] else [b, units])
  | _ => none

/-- Modelled from the spec: a dense layer replaces the last axis by
`units`. -/
def dense_shape (units : ℕ) : Shape → Option Shape
  | [] => none
  | s => some (s.dropLast ++ [units])

/-- Modelled from the spec: `RepeatVector(n)` turns `(batch, d)` into
`(batch, n, d)`. -/
def repeat_vector_shape (n : ℕ) : Shape → Option Shape
  | [b, d] => some [b, n, d]
  | _ => none

/-- Modelled from the spec: `TimeDistributed(Dense(units))` maps
`(batch, t, d)` to `(batch, t, units)`. -/
def time_distributed_dense_shape (units : ℕ) : Shape → Option Shape
  | [b, t, _d] => some [b, t, units]
  | _ => none

/-- Modelled from the spec: a model built on `Input(shape=declared)`
accepts exactly the batches whose per-sample shape is `declared`. -/
def input_shape_check (declared : List ℕ) : Shape → Option Shape
  | [] => none
  | b :: rest => if rest = declared then some (b :: rest) else none

/-- Shape behaviour of `build_encoder(input_shape, latent_dim)` (source
lines 133–139): `Input` → `LSTM(50, return_sequences=True)` → `LSTM(50)`
→ two parallel `Dense(latent_dim)` heads `(z_mean, z_log_var)`. -/
def encoder_shape (input_shape : List ℕ) (latent_dim : ℕ) (s : Shape) :
    Option (Shape × Shape) := do
  let s0 ← input_shape_check input_shape s
  let x1 ← lstm_shape 50 true s0
  let x2 ← lstm_shape 50 false x1
  let zm ← dense_shape latent_dim x2
  let zlv ← dense_shape latent_dim x2
  pure (zm, zlv)

/-- Shape behaviour of the `sampling` layer (source lines 142–147):
`z_mean + K.exp(0.5 * z_log_var) * epsilon` with `epsilon` drawn in the
shape of `z_mean`; elementwise, so both inputs must share one shape,
which is also the output shape. -/
def sampling_shape (zm zlv : Shape) : Option Shape :=
  if zm = zlv then some zm else none

/-- Shape behaviour of `build_decoder(latent_dim, output_shape)` (source
lines 150–156): `Input((latent_dim,))` → `Dense(50)` →
`RepeatVector(output_shape[0])` → `LSTM(50, return_sequences=True)` →
`TimeDistributed(Dense(output_shape[1]))`. -/
def decoder_shape (latent_dim : ℕ) (output_shape : List ℕ) (s : Shape) :
    Option Shape := do
  let s0 ← input_shape_check [latent_dim] s
  let x1 ← dense_shape 50 s0
  let x2 ← repeat_vector_shape (output_shape.getD 0 0) x1
  let x3 ← lstm_shape 50 true x2
  time_distributed_dense_shape (output_shape.getD 1 0) x3

/-- The VAE forward chain (source lines 159–168): encoder with
`input_shape = (30, 1)` and `latent_dim = 10`, the sampling layer, then
the decoder. -/
def vae_shape (s : Shape) : Option Shape := do
  let p ← encoder_shape [30, 1] 10 s
  let z ← sampling_shape p.1 p.2
  decoder_shape 10 [30, 1] z

/-- The composition named by the spec's round-trip property:
`encoder(decoder(encoder(x)))` — encoder, then (sampling and) decoder,
then encoder again. -/
def enc_dec_enc_shape (s : Shape) : Option (Shape × Shape) := do
  let y ← vae_shape s
  encoder_shape [30, 1] 10 y

/- ### ARIMA baseline (source lines 206–220) -/

/-- Modelled from the spec: a fitted ARIMA model is an opaque in-sample
prediction function supplied by the statistics library. -/
structure ArimaFitted where
  pred : ℕ → ℝ

/-- Modelled from the spec: `fitted.predict(start, end, typ='levels')`
returns one value per index of the inclusive range `[start, end]`. -/
def arima_predict (f : ArimaFitted) (start stop : ℕ) : List ℝ :=
  (List.range (stop + 1 - start)).map fun i => f.pred (start + i)

/-- The ARIMA baseline (source lines 210–220):
`real_data_arima = generate_real_data(100).flatten()`;
`sm.tsa.ARIMA(real_data_arima, order=(5, 1, 0)).fit()` — the fit itself
is the library's black box, passed in as `fit`, which either fails
(FittingFailure, the `Except.error` case) or returns a fitted model;
`predict(start=0, end=len(real_data_arima)-1, typ='levels')`; finally
`reshape(100, 30, 1)`, which raises on an element-count mismatch. -/
noncomputable def arima_pipeline
    (fit : List ℝ → ℕ × ℕ × ℕ → Except String ArimaFitted)
    (u : ℕ → ℕ → ℕ → ℝ) : Except String Batch :=
  match generate_real_data (100 : ℤ) u with
  | .error e => .error e
  | .ok real =>
    let real_data_arima := np_flatten real
    match fit real_data_arima (5, 1, 0) with
    | .error e => .error e
    | .ok m =>
      let arima_pred := arima_predict m 0 (real_data_arima.length - 1)
      match np_reshape3 arima_pred 100 30 1 with
      | some y => .ok y
      | none => .error "ValueError: cannot reshape"

theorem generate_real_data_natCast (b : ℕ) (u : ℕ → ℕ → ℕ → ℝ) :
    generate_real_data (b : ℤ) u = .ok (generate_real_data_pos b u) := by
  unfold generate_real_data
  rw [if_neg (not_lt.mpr (Int.natCast_nonneg b)), Int.toNat_natCast]

theorem generate_real_data_pos_shape (n : ℕ) (u : ℕ → ℕ → ℕ → ℝ) :
    shape3 (generate_real_data_pos n u) n 30 1 := by
  rw [generate_real_data_pos_eq]
  refine ⟨by simp only [List.length_map, List.length_range], ?_⟩
  intro r hr
  simp only [List.mem_map, List.mem_range] at hr
  obtain ⟨i, _, rfl⟩ := hr
  refine ⟨by simp only [List.length_map, List.length_range], ?_⟩
  intro c hc
  simp only [List.mem_map, List.mem_range] at hc
  obtain ⟨j, _, rfl⟩ := hc
  rfl

theorem list_sum_nonpos {l : List ℝ} (h : ∀ x ∈ l, x ≤ 0) : l.sum ≤ 0 := by
  induction l with
  | nil => simp
  | cons x xs ih =>
    simp only [List.sum_cons]
    have h1 := h x (List.mem_cons_self x xs)
    have h2 := ih fun y hy => h y (List.mem_cons_of_mem x hy)
    linarith

theorem list_sum_map_const {α : Type} (l : List α) (c : ℕ) :
    (l.map fun _ => c).sum = l.length * c := by
  induction l with
  | nil => simp
  | cons x xs ih => simp [ih, Nat.succ_mul, Nat.add_comm]

theorem shape3_range_map (n m k : ℕ) (f : ℕ → ℕ → ℕ → ℝ) :
    shape3 ((List.range n).map fun i => (List.range m).map fun j =>
      (List.range k).map fun l => f i j l) n m k := by
  refine ⟨by simp only [List.length_map, List.length_range], ?_⟩
  intro r hr
  simp only [List.mem_map, List.mem_range] at hr
  obtain ⟨i, _, rfl⟩ := hr
  refine ⟨by simp only [List.length_map, List.length_range], ?_⟩
  intro c hc
  simp only [List.mem_map, List.mem_range] at hc
  obtain ⟨j, _, rfl⟩ := hc
  simp only [List.length_map, List.length_range]

theorem np_reshape3_some_shape (xs : List ℝ) (n m k : ℕ) (h : xs.length = n * m * k) :
    ∃ y, np_reshape3 xs n m k = some y ∧ shape3 y n m k := by
  refine ⟨_, by unfold np_reshape3; rw [if_pos h], shape3_range_map n m k _⟩

theorem train_gan_foldl_log_length (o : GanOracle) (b : ℕ) :
    ∀ (l : List ℕ) (acc : GanWeights × List EpochLog),
      ((l.foldl (train_gan_step o b) acc).2).length = acc.2.length + l.length := by
  intro l
  induction l with
  | nil => intro acc; simp
  | cons e es ih =>
    intro acc
    simp only [List.foldl_cons, ih, train_gan_step, List.length_append,
      List.length_cons, List.length_nil]
    omega

/- ### Claim theorems -/

/-- C1: for every positive `n_samples`, `generate_real_data(n_samples)` returns
(rather than fails) an array of shape `(n_samples, 30, 1)` whose `(i, j, 0)`
entry is the sine of the `(i*30+j)`-th point of the evenly spaced
`n_samples * 30`-point ramp over `[0, 100]`, plus the additive noise
`0.5 * u i j 0` at that position (a mean-0, scale-0.5 Gaussian draw is `0.5`
times the oracle's standard-normal draw; every entry is a real number, so in
this real-valued model every value is finite). -/
theorem C1_generate_real_data_correct (n : ℤ) (u : ℕ → ℕ → ℕ → ℝ) (h : 0 < n) :
    ∃ y, generate_real_data n u = .ok y ∧ shape3 y n.toNat 30 1 ∧
      y = (List.range n.toNat).map fun (i : ℕ) => (List.range 30).map fun (j : ℕ) =>
        [Real.sin (100 * ((i * 30 + j : ℕ) : ℝ) / ((n.toNat * 30 - 1 : ℕ) : ℝ))
          + 0.5 * u i j 0] := by
  refine ⟨generate_real_data_pos n.toNat u, ?_, generate_real_data_pos_shape _ _,
    generate_real_data_pos_eq _ _⟩
  unfold generate_real_data
  rw [if_neg (not_lt.mpr (le_of_lt h))]

/-- Witness for C1 at `n_samples = 1` with the zero noise draw. -/
theorem C1_witness :
    (0 : ℤ) < 1 ∧
    ∃ y, generate_real_data 1 (fun _ _ _ => 0) = .ok y ∧ shape3 y (1 : ℤ).toNat 30 1 ∧
      y = (List.range (1 : ℤ).toNat).map fun (i : ℕ) => (List.range 30).map fun (j : ℕ) =>
        [Real.sin (100 * ((i * 30 + j : ℕ) : ℝ) / (((1 : ℤ).toNat * 30 - 1 : ℕ) : ℝ))
          + 0.5 * (fun (_ _ _ : ℕ) => (0 : ℝ)) i j 0] :=
  ⟨by decide, C1_generate_real_data_correct 1 (fun _ _ _ => 0) (by decide)⟩

/-- C2: each iteration of the training loop trains the discriminator first on
the real batch against `np.ones((batch_size, 1))`, then on the generator's
fake batch against `np.zeros((batch_size, 1))`; the epoch's reported
discriminator loss/accuracy pair is `0.5 *` the componentwise sum of the two
results; and the generator is then updated through the composite model on a
fresh noise batch against the all-ones labels `[1] * batch_size`. -/
theorem C2_gan_epoch_structure (o : GanOracle) (b e : ℕ) (w : GanWeights) :
    let real_data := generate_real_data_pos b (o.dataU e)
    let fake_data := o.predict w.gen (np_random3 b 30 1 (o.noiseU e 0))
    let r1 := o.dtrain w.disc real_data (np_ones2 b)
    let r2 := o.dtrain r1.1 fake_data (np_zeros2 b)
    let r3 := o.gtrain w.gen r2.1 (np_random3 b 30 1 (o.noiseU e 1)) (valid_y b)
    (gan_epoch o b e w).1 = ⟨r3.1, r2.1⟩ ∧
    (gan_epoch o b e w).2.d_loss = (0.5 * (r1.2.1 + r2.2.1), 0.5 * (r1.2.2 + r2.2.2)) ∧
    (gan_epoch o b e w).2.g_loss = r3.2 := by
  simp only [gan_epoch, disc_train_on_batch, gan_train_on_batch,
    generate_real_data_natCast, exceptGetD]
  exact ⟨trivial, trivial, trivial⟩

/-- C3: the VAE training loss is the batch mean, over the per-sample rows of
`(z_mean, z_log_var)`, of the flattened-input/flattened-output MSE scaled by
`30 * 1` plus the per-sample closed-form KL term
`-0.5 * Σ (1 + log-variance - mean² - exp(log-variance))`; and neither an
explicit compile-time loss nor an explicit fit target is passed — the added
loss is the sole training signal. -/
theorem C3_vae_loss_formula (inputs outputs : Batch) (zm zlv : List (List ℝ)) :
    vae_loss inputs outputs zm zlv =
      (((zm.zip zlv).map fun p =>
          mean_squared_error (K_flatten inputs) (K_flatten outputs) * (30 * 1) +
            -0.5 * (((p.1.zip p.2).map fun q => 1 + q.2 - q.1 ^ 2 - Real.exp q.2).sum)).sum) /
        ((zm.zip zlv).length : ℝ) ∧
    vae_compile_loss_arg = none ∧ vae_fit_target_arg = none := by
  refine ⟨?_, rfl, rfl⟩
  simp only [vae_loss, kl_row, List.map_map, Function.comp_def, List.length_map]

/-- C4: the composite update (`gan.train_on_batch`) leaves every
discriminator weight unchanged, for every noise batch, every label vector
and every weight state. -/
theorem C4_gan_train_preserves_disc (o : GanOracle) (w : GanWeights)
    (noise : Batch) (labels : List ℝ) :
    (gan_train_on_batch o w noise labels).1.disc = w.disc := rfl

/-- C5 (corrected): the claim "each synthesizer fails for every
`n_samples ≤ 0`" is false at `n_samples = 0` (see `C5_counterexample`); what
holds is that each synthesizer fails fast, with numpy's `ValueError` from
`np.linspace`, exactly for strictly negative `n_samples`. -/
theorem C5_negative_fails (n : ℤ) (u : ℕ → ℕ → ℕ → ℝ) (h : n < 0) :
    generate_real_data n u = .error "ValueError: Number of samples must be non-negative" ∧
    generate_rule_based_data n u
      = .error "ValueError: Number of samples must be non-negative" := by
  unfold generate_real_data generate_rule_based_data
  rw [if_pos h, if_pos h]
  exact ⟨rfl, rfl⟩

/-- Counterexample to C5 as stated: `n_samples = 0` is non-positive, yet both
synthesizers return a value (the empty batch) instead of failing. -/
theorem C5_counterexample :
    generate_real_data 0 (fun _ _ _ => 0) = .ok [] ∧
    generate_rule_based_data 0 (fun _ _ _ => 0) = .ok [] :=
  ⟨rfl, rfl⟩

/-- Witness for C5 (amended) at `n_samples = -1`. -/
theorem C5_witness :
    (-1 : ℤ) < 0 ∧
    (generate_real_data (-1) (fun _ _ _ => 0)
        = .error "ValueError: Number of samples must be non-negative" ∧
      generate_rule_based_data (-1) (fun _ _ _ => 0)
        = .error "ValueError: Number of samples must be non-negative") :=
  ⟨by decide, C5_negative_fails (-1) (fun _ _ _ => 0) (by decide)⟩

/-- C6: the ARIMA baseline flattens the 100-sample batch to a single series of
length 3000, fits order `(5, 1, 0)`, predicts in-sample over `[0, len - 1]`,
and then either fails (only with the fitting error the library's `fit`
produced) or returns the predictions reshaped to exactly `(100, 30, 1)` —
the final reshape cannot itself fail, so no mismatched shape is returned. -/
theorem C6_arima_shape (fit : List ℝ → ℕ × ℕ × ℕ → Except String ArimaFitted)
    (u : ℕ → ℕ → ℕ → ℝ) :
    (∃ e, arima_pipeline fit u = .error e ∧
        fit (np_flatten (generate_real_data_pos 100 u)) (5, 1, 0) = .error e) ∨
    (∃ y, arima_pipeline fit u = .ok y ∧ shape3 y 100 30 1) := by
  have h100 : generate_real_data (100 : ℤ) u = .ok (generate_real_data_pos 100 u) := by
    unfold generate_real_data
    rw [if_neg (by decide : ¬ (100 : ℤ) < 0)]
    rfl
  have hlen : (np_flatten (generate_real_data_pos 100 u)).length = 3000 := by
    rw [generate_real_data_pos_eq]
    simp only [np_flatten, List.length_flatten, List.map_flatten, List.map_map,
      Function.comp_def, List.length_map, List.length_range, List.length_cons,
      List.length_nil]
    rw [List.sum_flatten]
    simp only [List.map_map, Function.comp_def, list_sum_map_const, List.length_range]
  rcases hfit : fit (np_flatten (generate_real_data_pos 100 u)) (5, 1, 0) with e | m
  · left
    refine ⟨e, ?_, rfl⟩
    unfold arima_pipeline
    rw [h100]
    simp only [hfit]
  · right
    have hpredlen : (arima_predict m 0 ((np_flatten (generate_real_data_pos 100 u)).length - 1)).length
        = 100 * 30 * 1 := by
      simp only [arima_predict, List.length_map, List.length_range, hlen]
    obtain ⟨y, hy, hshape⟩ := np_reshape3_some_shape _ 100 30 1 hpredlen
    refine ⟨y, ?_, hshape⟩
    unfold arima_pipeline
    rw [h100]
    simp only [hfit, hy]

/-- C7: `train_gan` runs its loop body exactly `epochs` times (one log entry
per iteration, with default `epochs = 1000`) and then stops; with
`epochs = 0` the loop body never runs and the returned weights are exactly
the initial generator and discriminator weights. -/
theorem C7_train_gan_runs_exactly (o : GanOracle) (w0 : GanWeights)
    (epochs batch_size : ℕ) :
    (train_gan o w0 epochs batch_size).2.length = epochs ∧
    train_gan o w0 0 batch_size = (w0, []) ∧
    train_gan_default_epochs = 1000 := by
  refine ⟨?_, rfl, rfl⟩
  unfold train_gan
  rw [train_gan_foldl_log_length]
  simp

/-- C8: the per-sample KL term `-0.5 * Σ (1 + log-variance - mean² -
exp(log-variance))` is nonnegative for every mean vector and every
log-variance vector, because coordinatewise `1 + t ≤ exp t` and `0 ≤ m²`. -/
theorem C8_kl_nonneg (zm zlv : List ℝ) : 0 ≤ kl_row zm zlv := by
  unfold kl_row
  have hsum : (((zm.zip zlv).map fun p => 1 + p.2 - p.1 ^ 2 - Real.exp p.2).sum) ≤ 0 := by
    apply list_sum_nonpos
    intro x hx
    simp only [List.mem_map] at hx
    obtain ⟨p, _, rfl⟩ := hx
    have h1 := Real.add_one_le_exp p.2
    have h2 := sq_nonneg p.1
    nlinarith
  nlinarith

/-- C9 (amended): what holds of the round-trip is that for every batch size
`b`, the decoder applied to the (sampled) encoder output of a `(b, 30, 1)`
batch restores the `(b, 30, 1)` shape, so the outer encoder applies again;
the full composition `encoder(decoder(encoder(x)))` is therefore
well-defined, but its value has the encoder's latent output shapes
`((b, 10), (b, 10))`, not `(b, 30, 1)` (see `C9_counterexample`). -/
theorem C9_roundtrip_shape (b : ℕ) :
    vae_shape [b, 30, 1] = some [b, 30, 1] ∧
    enc_dec_enc_shape [b, 30, 1] = some ([b, 10], [b, 10]) := by
  constructor <;>
    simp [vae_shape, enc_dec_enc_shape, encoder_shape, decoder_shape, sampling_shape,
      input_shape_check, lstm_shape, dense_shape, repeat_vector_shape,
      time_distributed_dense_shape, Option.bind]

/-- Counterexample to C9 as stated: on a `(1, 30, 1)` input the composition
`encoder(decoder(encoder(x)))` produces the two latent heads of shape
`(1, 10)` each, which is not the `(1, 30, 1)` shape of `x`. -/
theorem C9_counterexample :
    enc_dec_enc_shape [1, 30, 1] = some ([1, 10], [1, 10]) ∧
    ([1, 10] : Shape) ≠ [1, 30, 1] := by
  exact ⟨by decide, by decide⟩

/-- C10: `n_samples = 0` raises no error in either synthesizer — each returns
the empty array, of (degenerate) shape `(0, 30, 1)` — while every strictly
negative `n_samples` makes the underlying `np.linspace` call fail. -/
theorem C10_zero_and_negative (u : ℕ → ℕ → ℕ → ℝ) :
    generate_real_data 0 u = .ok [] ∧ shape3 ([] : Batch) 0 30 1 ∧
    generate_rule_based_data 0 u = .ok [] ∧
    ∀ n : ℤ, n < 0 → (∃ e, generate_real_data n u = .error e) ∧
      (∃ e, generate_rule_based_data n u = .error e) := by
  refine ⟨rfl, ⟨rfl, by simp⟩, rfl, ?_⟩
  intro n hn
  unfold generate_real_data generate_rule_based_data
  rw [if_pos hn, if_pos hn]
  exact ⟨⟨_, rfl⟩, ⟨_, rfl⟩⟩

/-- Witness for C10's negative case at `n_samples = -2`. -/
theorem C10_witness :
    (-2 : ℤ) < 0 ∧ (∃ e, generate_real_data (-2) (fun _ _ _ => 0) = .error e) :=
  ⟨by decide, ((C10_zero_and_negative (fun _ _ _ => 0)).2.2.2 (-2) (by decide)).1⟩

end GanSyn
